import Mathlib

/-!
Verification of the eligibility scoring engine of `backend/app/api/eligibility.py`
(`check_program_eligibility`, `check_eligibility`,
`check_program_eligibility_endpoint`) against its specification.

Modelling conventions (shallow embedding of the Python source):
* Nullable ORM columns become `Option` fields.  Python truthiness of an
  optional string / bool / number is the `truthyStr` / `truthyBool` /
  `truthyInt` predicates below (`None`, `""`, `False`, `0` are falsy).
* `match_score` is a Python float initialised to `100.0` from which only the
  integer constants 10/15/20/30 are subtracted, followed by `max(0, score)`
  and comparisons with integer literals.  Every value reached is an integer
  of magnitude at most 105 and each of these operations is exact in IEEE-754
  double precision, so the score is modelled as `Int`.
* `annual_revenue` is a float column, but the evaluator consumes only its
  truthiness (`0.0`/`None` falsy); it is modelled as `Option Int`, which is
  faithful for that use.
* `program.category.value` raises `AttributeError` when the nullable
  `category` column is absent; attribute access is modelled by
  `categoryValue` in the `Except PyExn` monad, placed exactly where the
  source dereferences `.value`, preserving Python's left-to-right
  short-circuit evaluation of `and`.
-/

/-- The `GrantCategory` enum of `backend/app/models/database.py`. -/
inductive GrantCategory where
  | healthcare
  | small_business
  | education
  | nonprofit
  | agriculture
  | technology
  | housing
deriving DecidableEq

/-- The `.value` attribute of a `GrantCategory` member (its string payload). -/
def GrantCategory.value : GrantCategory → String
  | .healthcare => "healthcare"
  | .small_business => "small_business"
  | .education => "education"
  | .nonprofit => "nonprofit"
  | .agriculture => "agriculture"
  | .technology => "technology"
  | .housing => "housing"

/-- The fields of the `UserProfile` ORM model that the evaluator reads.
All columns are nullable. -/
structure UserProfile where
  organization_name : Option String := none
  organization_type : Option String := none
  address : Option String := none
  city : Option String := none
  state : Option String := none
  ein : Option String := none
  uei_number : Option String := none
  sam_registered : Option Bool := none
  annual_revenue : Option Int := none
  employee_count : Option Int := none
deriving DecidableEq

/-- The fields of the `GrantProgram` ORM model that the eligibility code
reads.  `agency` and `category` are nullable columns. -/
structure GrantProgram where
  id : String
  agency : Option String := none
  category : Option GrantCategory := none
deriving DecidableEq

/-- The `EligibilityCheck` pydantic response schema. -/
structure EligibilityCheck where
  program_id : String
  eligible : Bool
  match_score : Int
  missing_requirements : List String
  notes : Option String := none
deriving DecidableEq

/-- The `EligibilityResponse` pydantic response schema. -/
structure EligibilityResponse where
  total_programs : Nat
  eligible_count : Nat
  programs : List EligibilityCheck
deriving DecidableEq

/-- A Python exception escaping the evaluator. -/
inductive PyExn where
  | attributeError
deriving DecidableEq

/-- Python truthiness of an optional string column (`None` and `""` falsy). -/
def truthyStr : Option String → Bool
  | none => false
  | some s => s != ""

/-- Python truthiness of an optional boolean column (`None`, `False` falsy). -/
def truthyBool : Option Bool → Bool
  | none => false
  | some b => b

/-- Python truthiness of an optional numeric column (`None`, `0` falsy). -/
def truthyInt : Option Int → Bool
  | none => false
  | some n => n != 0

/-- Attribute access `category.value` on a nullable column: raises
`AttributeError` on `None`. -/
def categoryValue : Option GrantCategory → Except PyExn String
  | some c => .ok c.value
  | none => .error .attributeError

/-- Python's string formatting of the score inside the f-string
`f"Match score: {score}%"`: the score is a float, and every value it can
reach is integral and non-negative, which Python prints with a trailing
".0" (for example `5.0`). -/
def floatStr (score : Int) : String := toString score ++ ".0"

/-- `program.agency in ["USDA", "SBA", "HHS", "DOC"]` (Python membership;
`None` is not a member). -/
def agencyIsFederal : Option String → Bool
  | some a => ["USDA", "SBA", "HHS", "DOC"].contains a
  | none => false

/-- Membership test `profile.organization_type in
["healthcare", "nonprofit", "hospital", "clinic"]` of the healthcare rule
(`None` is not a member). -/
def orgTypeIsHealthcare : Option String → Bool
  | some t => ["healthcare", "nonprofit", "hospital", "clinic"].contains t
  | none => false

/-- Shallow embedding of the helper `check_program_eligibility(profile,
program)` (eligibility.py lines 31-81).  Each conditional mirrors one `if` of
the source, in source order; `missing` and `score` are the source's
accumulator variables.  The two guards that read `program.category.value`
behind a short-circuiting `and` are monadic, as is the unconditional
dereference at the category-specific checks (line 57), so an absent category
raises exactly where the source would. -/
def check_program_eligibility (profile : UserProfile) (program : GrantProgram) :
    Except PyExn EligibilityCheck := do
  let missing : List String := []
  let score : Int := 100
  -- if not profile.organization_name and program.category.value != "education":
  let b1 ← if truthyStr profile.organization_name then pure false
    else (categoryValue program.category).map (fun v => v != "education")
  let missing := missing ++ (if b1 then ["Organization name required"] else [])
  let score := score - (if b1 then 20 else 0)
  -- if not profile.ein and program.category.value not in ["education", "individual"]:
  let b2 ← if truthyStr profile.ein then pure false
    else (categoryValue program.category).map (fun v => !(["education", "individual"].contains v))
  let missing := missing ++ (if b2 then ["EIN (Tax ID) required for federal grants"] else [])
  let score := score - (if b2 then 15 else 0)
  -- if not profile.address or not profile.city or not profile.state:
  let b3 := !truthyStr profile.address || !truthyStr profile.city || !truthyStr profile.state
  let missing := missing ++ (if b3 then ["Complete address required"] else [])
  let score := score - (if b3 then 10 else 0)
  -- if program.agency in ["USDA", "SBA", "HHS", "DOC"] and not profile.sam_registered:
  let b4 := agencyIsFederal program.agency && !truthyBool profile.sam_registered
  let missing := missing ++ (if b4 then ["SAM.gov registration required"] else [])
  let score := score - (if b4 then 15 else 0)
  -- if not profile.uei_number and program.agency in ["USDA", "SBA", "HHS", "DOC"]:
  let b5 := !truthyStr profile.uei_number && agencyIsFederal program.agency
  let missing := missing ++ (if b5 then ["UEI number required for federal grants"] else [])
  let score := score - (if b5 then 15 else 0)
  -- if program.category.value == "small_business": (unconditional dereference)
  let catv ← categoryValue program.category
  let b6 := catv == "small_business" && !truthyInt profile.annual_revenue
  let missing := missing ++ (if b6 then ["Annual revenue information needed"] else [])
  let score := score - (if b6 then 10 else 0)
  let b7 := catv == "small_business" && !truthyInt profile.employee_count
  let missing := missing ++ (if b7 then ["Employee count needed"] else [])
  let score := score - (if b7 then 10 else 0)
  -- if program.category.value == "healthcare": organization_type membership
  let b8 := catv == "healthcare" && !orgTypeIsHealthcare profile.organization_type
  let missing := missing ++ (if b8 then ["Must be healthcare organization"] else [])
  let score := score - (if b8 then 30 else 0)
  -- score = max(0, score); eligible = len(missing) == 0 or score >= 70
  let score := max 0 score
  let eligible := missing.length == 0 || decide (70 ≤ score)
  pure { program_id := program.id
         eligible := eligible
         match_score := score
         missing_requirements := missing
         notes := some (if missing.length == 0 then "You appear to meet all requirements"
           else "Match score: " ++ floatStr score ++ "%") }

/-- Descending-score comparison used by the aggregator's sort:
`scoreGE a b` holds when `a`'s match score is at least `b`'s. -/
def scoreGE (a b : EligibilityCheck) : Prop := b.match_score ≤ a.match_score

instance : DecidableRel scoreGE := fun a b => Int.decLe b.match_score a.match_score

instance : IsTotal EligibilityCheck scoreGE :=
  ⟨fun a b => Int.le_total b.match_score a.match_score⟩

instance : IsTrans EligibilityCheck scoreGE :=
  ⟨fun _ _ _ hab hbc => le_trans hbc hab⟩

/-- Model of `results.sort(key=lambda x: x.match_score, reverse=True)`
(eligibility.py line 108).  Python's `list.sort` is stable, and a stable
descending sort of a list is the unique output that is sorted under
`scoreGE` and preserves the relative order of equal scores; insertion sort
with respect to `scoreGE` produces exactly that list. -/
def sortByScoreDesc (l : List EligibilityCheck) : List EligibilityCheck :=
  l.insertionSort scoreGE

/-- The list comprehension `[check_program_eligibility(profile, p) for p in
programs]` (eligibility.py line 103): evaluates left to right, propagating
the first raised exception. -/
def evalAll (profile : UserProfile) : List GrantProgram → Except PyExn (List EligibilityCheck)
  | [] => .ok []
  | p :: ps => do
    let v ← check_program_eligibility profile p
    let vs ← evalAll profile ps
    pure (v :: vs)

/-- Shallow embedding of the aggregator endpoint `check_eligibility`
(eligibility.py lines 86-113).  The two database lookups are passed in as
arguments: `profile` is the result of the user-profile query and `programs`
the list of active programs returned by the program query. -/
def check_eligibility (profile : Option UserProfile) (programs : List GrantProgram) :
    Except PyExn EligibilityResponse :=
  match profile with
  | none => .ok { total_programs := 0, eligible_count := 0, programs := [] }
  | some profile => do
    let results ← evalAll profile programs
    let eligible_count := (results.filter (fun r => r.eligible)).length
    pure { total_programs := programs.length
           eligible_count := eligible_count
           programs := sortByScoreDesc results }

/-- An error escaping the single-program endpoint: either the explicit
`HTTPException(status_code=404, ...)` or a Python exception propagating out
of the evaluator. -/
inductive ApiError where
  | httpException (status : Nat) (detail : String)
  | pyExn (e : PyExn)
deriving DecidableEq

/-- Shallow embedding of the single-program endpoint
`check_program_eligibility_endpoint` (eligibility.py lines 116-140).  The
two database lookups are passed in as arguments; the program-not-found check
precedes the missing-profile check, as in the source. -/
def check_program_eligibility_endpoint (program_id : String)
    (profile : Option UserProfile) (program : Option GrantProgram) :
    Except ApiError EligibilityCheck :=
  match program with
  | none => .error (.httpException 404 "Program not found")
  | some prog =>
    match profile with
    | none => .ok { program_id := program_id
                    eligible := false
                    match_score := 0
                    missing_requirements := ["Please complete your profile first"]
                    notes := some "Complete your profile to check eligibility" }
    | some p => (check_program_eligibility p prog).mapError .pyExn

/-- ASCII lower-casing of a character, as Python's `str.lower` acts on the
ASCII letters appearing in the sentinel message. -/
def lowerChar (c : Char) : Char :=
  if 65 ≤ c.toNat && c.toNat ≤ 90 then Char.ofNat (c.toNat + 32) else c

/-- Model of Python's `str.lower()` restricted to ASCII strings, used to
state the case-insensitive substring condition on the sentinel entry. -/
def asciiLower (s : String) : String := String.mk (s.data.map lowerChar)

/-! ### Proof layer

The eight deduction rules of `check_program_eligibility`, given that the
program's category is present (value `c`), as pure booleans, together with
the verdict each boolean combination produces.  `check_eq_mkVerdict` below
proves that the evaluator returns exactly this verdict whenever the category
is present, so properties of the evaluator reduce to finite checks over the
eight booleans. -/

/-- Rule 1 trigger: organization name absent for a non-education program. -/
def rule1 (profile : UserProfile) (c : GrantCategory) : Bool :=
  !truthyStr profile.organization_name && (c.value != "education")

/-- Rule 2 trigger: EIN absent for a non-education, non-individual program. -/
def rule2 (profile : UserProfile) (c : GrantCategory) : Bool :=
  !truthyStr profile.ein && !(["education", "individual"].contains c.value)

/-- Rule 3 trigger: incomplete address. -/
def rule3 (profile : UserProfile) : Bool :=
  !truthyStr profile.address || !truthyStr profile.city || !truthyStr profile.state

/-- Rule 4 trigger: federal agency without SAM.gov registration. -/
def rule4 (profile : UserProfile) (program : GrantProgram) : Bool :=
  agencyIsFederal program.agency && !truthyBool profile.sam_registered

/-- Rule 5 trigger: UEI number absent for a federal agency. -/
def rule5 (profile : UserProfile) (program : GrantProgram) : Bool :=
  !truthyStr profile.uei_number && agencyIsFederal program.agency

/-- Rule 6 trigger: annual revenue absent for a small-business program. -/
def rule6 (profile : UserProfile) (c : GrantCategory) : Bool :=
  c.value == "small_business" && !truthyInt profile.annual_revenue

/-- Rule 7 trigger: employee count absent for a small-business program. -/
def rule7 (profile : UserProfile) (c : GrantCategory) : Bool :=
  c.value == "small_business" && !truthyInt profile.employee_count

/-- Rule 8 trigger: organization type not healthcare-like for a healthcare
program. -/
def rule8 (profile : UserProfile) (c : GrantCategory) : Bool :=
  c.value == "healthcare" && !orgTypeIsHealthcare profile.organization_type

/-- The `missing_requirements` list produced by a given combination of rule
triggers, in the source's rule order. -/
def missingOf (b1 b2 b3 b4 b5 b6 b7 b8 : Bool) : List String :=
  (if b1 then ["Organization name required"] else []) ++
  (if b2 then ["EIN (Tax ID) required for federal grants"] else []) ++
  (if b3 then ["Complete address required"] else []) ++
  (if b4 then ["SAM.gov registration required"] else []) ++
  (if b5 then ["UEI number required for federal grants"] else []) ++
  (if b6 then ["Annual revenue information needed"] else []) ++
  (if b7 then ["Employee count needed"] else []) ++
  (if b8 then ["Must be healthcare organization"] else [])

/-- The clamped `match_score` produced by a given combination of rule
triggers. -/
def scoreOf (b1 b2 b3 b4 b5 b6 b7 b8 : Bool) : Int :=
  max 0 (100 - (if b1 then 20 else 0) - (if b2 then 15 else 0) -
    (if b3 then 10 else 0) - (if b4 then 15 else 0) - (if b5 then 15 else 0) -
    (if b6 then 10 else 0) - (if b7 then 10 else 0) - (if b8 then 30 else 0))

/-- The full verdict produced by a given combination of rule triggers. -/
def mkVerdict (pid : String) (b1 b2 b3 b4 b5 b6 b7 b8 : Bool) : EligibilityCheck :=
  { program_id := pid
    eligible := (missingOf b1 b2 b3 b4 b5 b6 b7 b8).length == 0 ||
      decide (70 ≤ scoreOf b1 b2 b3 b4 b5 b6 b7 b8)
    match_score := scoreOf b1 b2 b3 b4 b5 b6 b7 b8
    missing_requirements := missingOf b1 b2 b3 b4 b5 b6 b7 b8
    notes := some (if (missingOf b1 b2 b3 b4 b5 b6 b7 b8).length == 0
      then "You appear to meet all requirements"
      else "Match score: " ++ floatStr (scoreOf b1 b2 b3 b4 b5 b6 b7 b8) ++ "%") }

/-- The empty profile: every nullable column absent. -/
def emptyProfile : UserProfile := {}

/-- The SBA small-business program of the specification's worked scenario. -/
def sbaProgram : GrantProgram :=
  { id := "sba_small_biz", agency := some "SBA", category := some .small_business }

/-- A second SBA small-business program, used to exhibit a score tie. -/
def sbaProgram2 : GrantProgram :=
  { id := "sba_grant_2", agency := some "SBA", category := some .small_business }

/-- A technology program from a non-federal agency. -/
def techProgram : GrantProgram :=
  { id := "tech_grant", category := some .technology }

/-- The verdict the evaluator returns for the empty profile against
`sbaProgram`. -/
def sbaVerdict : EligibilityCheck :=
  { program_id := "sba_small_biz"
    eligible := false
    match_score := 5
    missing_requirements := ["Organization name required",
      "EIN (Tax ID) required for federal grants", "Complete address required",
      "SAM.gov registration required", "UEI number required for federal grants",
      "Annual revenue information needed", "Employee count needed"]
    notes := some "Match score: 5.0%" }

/-- The verdict the evaluator returns for the empty profile against
`sbaProgram2` (same score as `sbaVerdict`). -/
def sbaVerdict2 : EligibilityCheck :=
  { sbaVerdict with program_id := "sba_grant_2" }

/-- The verdict the evaluator returns for the empty profile against
`techProgram`. -/
def techVerdict : EligibilityCheck :=
  { program_id := "tech_grant"
    eligible := false
    match_score := 55
    missing_requirements := ["Organization name required",
      "EIN (Tax ID) required for federal grants", "Complete address required"]
    notes := some "Match score: 55.0%" }

/-- A three-program catalogue containing a score tie under the empty
profile. -/
def tiePrograms : List GrantProgram := [sbaProgram, sbaProgram2, techProgram]

/-- The pre-sort verdicts of `tiePrograms` under the empty profile. -/
def tieResults : List EligibilityCheck := [sbaVerdict, sbaVerdict2, techVerdict]

/-- The sentinel verdict of the single-program endpoint for `sbaProgram`
when the user has no profile. -/
def sentinelVerdict : EligibilityCheck :=
  { program_id := "sba_small_biz"
    eligible := false
    match_score := 0
    missing_requirements := ["Please complete your profile first"]
    notes := some "Complete your profile to check eligibility" }

/-! ### Lemmas about the evaluator -/

/-- When the program's category column is absent, the evaluator raises
`AttributeError`: either at the first guard (when the organization name is
falsy) or at the unconditional dereference before the category-specific
checks. -/
theorem check_error_of_none (profile : UserProfile) (program : GrantProgram)
    (h : program.category = none) :
    check_program_eligibility profile program = .error .attributeError := by
  cases ht1 : truthyStr profile.organization_name <;>
    cases ht2 : truthyStr profile.ein <;>
      simp [check_program_eligibility, categoryValue, h, ht1, ht2, Except.map, bind, Except.bind,
        pure, Except.pure]

/-- When the program's category is present, the evaluator returns the
verdict determined by the eight rule booleans. -/
theorem check_eq_mkVerdict (profile : UserProfile) (program : GrantProgram)
    (c : GrantCategory) (h : program.category = some c) :
    check_program_eligibility profile program =
      .ok (mkVerdict program.id (rule1 profile c) (rule2 profile c) (rule3 profile)
        (rule4 profile program) (rule5 profile program) (rule6 profile c)
        (rule7 profile c) (rule8 profile c)) := by
  cases ht1 : truthyStr profile.organization_name <;>
    cases ht2 : truthyStr profile.ein <;>
      simp [check_program_eligibility, categoryValue, h, ht1, ht2, Except.map, bind, Except.bind,
        pure, Except.pure, mkVerdict, rule1, rule2, rule3, rule4, rule5, rule6, rule7, rule8,
        missingOf, scoreOf, List.append_assoc]

/-- Finite check over the rule booleans: the eligibility flag is set exactly
when the missing list is empty or the score reaches 70. -/
theorem eligible_generic : ∀ b1 b2 b3 b4 b5 b6 b7 b8 : Bool,
    (((missingOf b1 b2 b3 b4 b5 b6 b7 b8).length == 0 ||
      decide (70 ≤ scoreOf b1 b2 b3 b4 b5 b6 b7 b8)) = true ↔
      (missingOf b1 b2 b3 b4 b5 b6 b7 b8 = [] ∨ 70 ≤ scoreOf b1 b2 b3 b4 b5 b6 b7 b8)) := by
  decide

/-- Finite check over the rule booleans: the missing list is empty exactly
when the score is 100. -/
theorem missing_iff_score_generic : ∀ b1 b2 b3 b4 b5 b6 b7 b8 : Bool,
    (missingOf b1 b2 b3 b4 b5 b6 b7 b8 = [] ↔ scoreOf b1 b2 b3 b4 b5 b6 b7 b8 = 100) := by
  decide

/-- Finite check over the rule booleans: the score stays within [0, 100]. -/
theorem score_range_generic : ∀ b1 b2 b3 b4 b5 b6 b7 b8 : Bool,
    (0 ≤ scoreOf b1 b2 b3 b4 b5 b6 b7 b8 ∧ scoreOf b1 b2 b3 b4 b5 b6 b7 b8 ≤ 100) := by
  decide

/-- Inserting a verdict whose score is `s` puts it in front of every later
verdict with score `s`: the skipped elements all have strictly larger
scores. -/
theorem filter_orderedInsert_of_eq (x : EligibilityCheck) (s : Int)
    (hx : x.match_score = s) :
    ∀ l : List EligibilityCheck,
      (l.orderedInsert scoreGE x).filter (fun v => v.match_score == s) =
        x :: l.filter (fun v => v.match_score == s)
  | [] => by simp [List.orderedInsert, hx]
  | y :: ys => by
    by_cases hr : scoreGE x y
    · simp [List.orderedInsert, hr, hx]
    · have hy : (y.match_score == s) = false := by
        simp only [scoreGE, not_le] at hr
        simp only [beq_eq_false_iff_ne, ne_eq]
        omega
      simp [List.orderedInsert, hr, hy, filter_orderedInsert_of_eq x s hx ys]

/-- Inserting a verdict whose score is not `s` leaves the score-`s`
subsequence unchanged. -/
theorem filter_orderedInsert_of_ne (x : EligibilityCheck) (s : Int)
    (hx : x.match_score ≠ s) :
    ∀ l : List EligibilityCheck,
      (l.orderedInsert scoreGE x).filter (fun v => v.match_score == s) =
        l.filter (fun v => v.match_score == s)
  | [] => by simp [List.orderedInsert, hx]
  | y :: ys => by
    by_cases hr : scoreGE x y
    · simp [List.orderedInsert, hr, hx]
    · simp [List.orderedInsert, hr, List.filter_cons,
        filter_orderedInsert_of_ne x s hx ys]

/-- Stability of the aggregator's sort: for every score `s`, the verdicts
with score `s` appear in the sorted list in exactly their pre-sort order. -/
theorem filter_sortByScoreDesc (s : Int) :
    ∀ l : List EligibilityCheck,
      (sortByScoreDesc l).filter (fun v => v.match_score == s) =
        l.filter (fun v => v.match_score == s)
  | [] => rfl
  | x :: xs => by
    have ih := filter_sortByScoreDesc s xs
    simp only [sortByScoreDesc] at ih ⊢
    rw [List.insertionSort]
    by_cases hx : x.match_score = s
    · rw [filter_orderedInsert_of_eq x s hx, ih]
      simp [List.filter_cons, hx]
    · rw [filter_orderedInsert_of_ne x s hx, ih]
      simp [List.filter_cons, hx]

/-! ### Claims -/

/-- C1: for every profile and program, the verdict returned by the evaluator
has `eligible = true` if and only if `missing_requirements` is empty or
`match_score ≥ 70`. -/
theorem eligible_iff_empty_or_seventy (profile : UserProfile) (program : GrantProgram)
    (r : EligibilityCheck) (h : check_program_eligibility profile program = .ok r) :
    (r.eligible = true ↔ (r.missing_requirements = [] ∨ 70 ≤ r.match_score)) := by
  cases hc : program.category with
  | none =>
    rw [check_error_of_none profile program hc] at h
    exact absurd h (by simp)
  | some c =>
    rw [check_eq_mkVerdict profile program c hc] at h
    injection h with h
    subst h
    simp only [mkVerdict]
    exact eligible_generic (rule1 profile c) (rule2 profile c) (rule3 profile)
      (rule4 profile program) (rule5 profile program) (rule6 profile c)
      (rule7 profile c) (rule8 profile c)

/-- Witness for C1: the evaluator's verdict for the empty profile on the SBA
small-business program satisfies the equivalence. -/
theorem eligible_iff_empty_or_seventy_witness :
    (sbaVerdict.eligible = true ↔
      (sbaVerdict.missing_requirements = [] ∨ 70 ≤ sbaVerdict.match_score)) :=
  eligible_iff_empty_or_seventy emptyProfile sbaProgram sbaVerdict (by rfl)

/-- C2: for every profile and program, the evaluator's
`missing_requirements` list is empty if and only if `match_score = 100`. -/
theorem missing_empty_iff_score_hundred (profile : UserProfile) (program : GrantProgram)
    (r : EligibilityCheck) (h : check_program_eligibility profile program = .ok r) :
    (r.missing_requirements = [] ↔ r.match_score = 100) := by
  cases hc : program.category with
  | none =>
    rw [check_error_of_none profile program hc] at h
    exact absurd h (by simp)
  | some c =>
    rw [check_eq_mkVerdict profile program c hc] at h
    injection h with h
    subst h
    simp only [mkVerdict]
    exact missing_iff_score_generic (rule1 profile c) (rule2 profile c) (rule3 profile)
      (rule4 profile program) (rule5 profile program) (rule6 profile c)
      (rule7 profile c) (rule8 profile c)

/-- Witness for C2: the equivalence holds for the evaluator's verdict on the
empty profile and the SBA small-business program. -/
theorem missing_empty_iff_score_hundred_witness :
    (sbaVerdict.missing_requirements = [] ↔ sbaVerdict.match_score = 100) :=
  missing_empty_iff_score_hundred emptyProfile sbaProgram sbaVerdict (by rfl)

/-- C3: for every profile and program, the evaluator's `match_score` lies in
the closed range [0, 100] (100 minus the triggered deductions, clamped below
at 0). -/
theorem match_score_in_range (profile : UserProfile) (program : GrantProgram)
    (r : EligibilityCheck) (h : check_program_eligibility profile program = .ok r) :
    0 ≤ r.match_score ∧ r.match_score ≤ 100 := by
  cases hc : program.category with
  | none =>
    rw [check_error_of_none profile program hc] at h
    exact absurd h (by simp)
  | some c =>
    rw [check_eq_mkVerdict profile program c hc] at h
    injection h with h
    subst h
    simp only [mkVerdict]
    exact score_range_generic (rule1 profile c) (rule2 profile c) (rule3 profile)
      (rule4 profile program) (rule5 profile program) (rule6 profile c)
      (rule7 profile c) (rule8 profile c)

/-- Witness for C3: the score of the evaluator's verdict on the empty
profile and the SBA small-business program lies in [0, 100]. -/
theorem match_score_in_range_witness :
    0 ≤ sbaVerdict.match_score ∧ sbaVerdict.match_score ≤ 100 :=
  match_score_in_range emptyProfile sbaProgram sbaVerdict (by rfl)

/-- C4 counterexample: on the empty profile and a program whose category
column is absent, the evaluator raises `AttributeError` instead of treating
the category checks as false, so the evaluator is not total. -/
theorem check_fails_on_absent_category :
    check_program_eligibility emptyProfile
      { id := "no_category_program", agency := some "SBA", category := none } =
      .error .attributeError := rfl

/-- C4 (amended): the evaluator succeeds exactly when the program's category
is set; every profile field may still be absent.  When the category is
absent the dereference `program.category.value` raises `AttributeError`
rather than making the category checks false. -/
theorem check_ok_iff_category_present (profile : UserProfile) (program : GrantProgram) :
    ((check_program_eligibility profile program).isOk = true ↔
      program.category.isSome = true) := by
  cases hc : program.category with
  | none =>
    rw [check_error_of_none profile program hc]
    simp [Except.isOk, Except.toBool]
  | some c =>
    rw [check_eq_mkVerdict profile program c hc]
    simp [Except.isOk, Except.toBool]

/-- C5: for the empty profile (all fields absent) and a program with
category `small_business` and agency "SBA", the evaluator triggers the seven
deductions 20+15+10+15+15+10+10, returning `match_score = 5`,
`eligible = false`, and the seven missing-requirement entries in the rule
table's canonical order. -/
theorem empty_profile_sba_scenario :
    check_program_eligibility emptyProfile sbaProgram = .ok
      { program_id := "sba_small_biz"
        eligible := false
        match_score := 5
        missing_requirements := ["Organization name required",
          "EIN (Tax ID) required for federal grants", "Complete address required",
          "SAM.gov registration required", "UEI number required for federal grants",
          "Annual revenue information needed", "Employee count needed"]
        notes := some "Match score: 5.0%" } := rfl

/-- C6: for every profile and program list whose evaluation succeeds, the
aggregator returns the verdicts sorted by `match_score` descending
(`scoreGE`-sorted), and for every score the verdicts carrying that score
appear in their pre-sort relative order (the sort is stable). -/
theorem check_eligibility_sorted_stable (profile : UserProfile)
    (programs : List GrantProgram) (results : List EligibilityCheck)
    (h : evalAll profile programs = .ok results) :
    check_eligibility (some profile) programs =
      .ok { total_programs := programs.length
            eligible_count := (results.filter (fun r => r.eligible)).length
            programs := sortByScoreDesc results } ∧
    (sortByScoreDesc results).Sorted scoreGE ∧
    ∀ s : Int, (sortByScoreDesc results).filter (fun v => v.match_score == s) =
      results.filter (fun v => v.match_score == s) := by
  refine ⟨?_, ?_, fun s => filter_sortByScoreDesc s results⟩
  · simp [check_eligibility, h, bind, Except.bind, pure, Except.pure]
  · exact List.sorted_insertionSort scoreGE results

/-- Witness for C6: under the empty profile, the three-program catalogue
with a score tie (5, 5, 55) is returned sorted and tie-stable. -/
theorem check_eligibility_sorted_stable_witness :
    check_eligibility (some emptyProfile) tiePrograms =
      .ok { total_programs := tiePrograms.length
            eligible_count := (tieResults.filter (fun r => r.eligible)).length
            programs := sortByScoreDesc tieResults } ∧
    (sortByScoreDesc tieResults).Sorted scoreGE ∧
    ∀ s : Int, (sortByScoreDesc tieResults).filter (fun v => v.match_score == s) =
      tieResults.filter (fun v => v.match_score == s) :=
  check_eligibility_sorted_stable emptyProfile tiePrograms tieResults (by rfl)

/-- C7: for every program list, when the user's profile is absent the
aggregator returns `total_programs = 0`, `eligible_count = 0`, and an empty
verdict list, without evaluating any program. -/
theorem check_eligibility_absent_profile (programs : List GrantProgram) :
    check_eligibility none programs =
      .ok { total_programs := 0, eligible_count := 0, programs := [] } := rfl

/-- C8: when the requested program exists but the user has no profile, the
single-program endpoint returns the sentinel verdict with `eligible =
false`, `match_score = 0`, and the single entry "Please complete your
profile first", whose ASCII lower-casing contains the substring "complete
your profile". -/
theorem endpoint_sentinel_when_no_profile (program_id : String) (program : GrantProgram) :
    check_program_eligibility_endpoint program_id none (some program) =
      .ok { program_id := program_id
            eligible := false
            match_score := 0
            missing_requirements := ["Please complete your profile first"]
            notes := some "Complete your profile to check eligibility" } ∧
    ∃ s1 s2 : String,
      asciiLower "Please complete your profile first" =
        s1 ++ "complete your profile" ++ s2 :=
  ⟨rfl, "please ", " first", by decide⟩

/-- C9: program-not-found takes precedence over the missing-profile
sentinel: when the program lookup is empty the endpoint signals 404 for
every profile state (including no profile), and an `ok` verdict — in
particular the sentinel — is only ever returned when the program exists. -/
theorem endpoint_not_found_precedence (program_id : String)
    (profile : Option UserProfile) :
    check_program_eligibility_endpoint program_id profile none =
      .error (.httpException 404 "Program not found") ∧
    ∀ (program : Option GrantProgram) (r : EligibilityCheck),
      check_program_eligibility_endpoint program_id profile program = .ok r →
      program.isSome = true := by
  refine ⟨rfl, fun program r h => ?_⟩
  cases program with
  | none => simp [check_program_eligibility_endpoint] at h
  | some prog => rfl

/-- Witness for C9: concrete 404 with no profile, and a concrete `ok` return
(the sentinel) forcing the program to be present. -/
theorem endpoint_not_found_precedence_witness :
    (check_program_eligibility_endpoint "sba_small_biz" none none =
      .error (.httpException 404 "Program not found")) ∧
    (some sbaProgram).isSome = true :=
  ⟨(endpoint_not_found_precedence "sba_small_biz" none).1,
    (endpoint_not_found_precedence "sba_small_biz" none).2 (some sbaProgram)
      sentinelVerdict (by rfl)⟩

